import Mathlib

/-!
Shallow embedding of the Theophysics Architect plugin
(src/.obsidian/plugins/theophysics-architect/main.ts) and proofs about it.

The plugin's logical core is pure: a tier classifier over a frontmatter
`type` field, a vault-wide aggregation loop, a Mermaid diagram generator,
a Markdown dashboard template, and a save routine.  Host-supplied data
(metadata cache entries, the vault file tree, the persisted settings
record) is embedded as explicit Lean structures; JavaScript truthiness on
the string fields involved (absent / empty string are falsy) is modelled
with Option and explicit emptiness tests.
-/

/-- The schema sub-record of the plugin settings (main.ts lines 6-10). -/
structure Schema where
  level1 : String
  level2 : String
  level3 : String
deriving DecidableEq, Repr

/-- ArchitectSettings (main.ts lines 4-11). -/
structure ArchitectSettings where
  analysisFolder : String
  schema : Schema
deriving DecidableEq, Repr

/-- DEFAULT_SETTINGS (main.ts lines 13-20). -/
def DEFAULT_SETTINGS : ArchitectSettings :=
  { analysisFolder := "Data Analytics"
    schema := { level1 := "Signal", level2 := "Pattern", level3 := "Constant" } }

/-- The frontmatter fields the plugin reads.  `type := none` models an
absent field, `some ""` an empty string (falsy in JavaScript, like
absence); `breakthrough` models the strict comparison target of
`fm.breakthrough === true`. -/
structure Frontmatter where
  type : Option String
  breakthrough : Option Bool
deriving DecidableEq, Repr

/-- One cached outgoing link, as consumed by scanConnections
(main.ts lines 78-83): `link.link` and the optional `link.displayText`. -/
structure Link where
  link : String
  displayText : Option String
deriving DecidableEq, Repr

/-- One node pushed by scanConnections (main.ts lines 79-82). -/
structure MapNode where
  name : String
  displayText : String
deriving DecidableEq, Repr

/-- The value returned by scanConnections (main.ts line 85). -/
structure ConnectionMap where
  myType : String
  nodes : List MapNode
deriving DecidableEq, Repr

/-- JavaScript's toLowerCase, modelled character-wise (the `type` values the
code compares against are plain ASCII, where this agrees with the
JavaScript behaviour).  Defined over the character list so that it is
kernel-computable. -/
def lowercase (s : String) : String :=
  String.mk (s.data.map Char.toLower)

/-- The tier classification performed inside scanConnections
(main.ts lines 66-75).  A missing frontmatter, a missing `type` field and
an empty `type` string all fail the JavaScript truthiness test
`frontmatter && frontmatter.type` and yield the level-1 default; otherwise
the lower-cased value is matched against the three canonical pairs, and
any other value is returned unchanged. -/
def classify (schema : Schema) (fm? : Option Frontmatter) : String :=
  match fm? with
  | none => schema.level1
  | some fm =>
    match fm.type with
    | none => schema.level1
    | some ty =>
      if ty == "" then schema.level1
      else
        let t := lowercase ty
        if t == "law" || t == "constant" then schema.level3
        else if t == "molecule" || t == "pattern" then schema.level2
        else if t == "atom" || t == "signal" then schema.level1
        else ty

/-- scanConnections (main.ts lines 60-86): classify the file and turn each
cached link into a node, with `displayText || link` fallback (an absent or
empty displayText is falsy). -/
def scanConnections (settings : ArchitectSettings) (fm? : Option Frontmatter)
    (links : List Link) : ConnectionMap :=
  { myType := classify settings.schema fm?
    nodes := links.map (fun l =>
      { name := l.link
        displayText :=
          match l.displayText with
          | none => l.link
          | some d => if d == "" then l.link else d }) }

lemma classify_cases (schema : Schema) (bv : Option Bool) (ty : String) :
    (classify schema none = schema.level1) ∧
    (classify schema (some { type := none, breakthrough := bv }) = schema.level1) ∧
    (lowercase ty = "atom" ∨ lowercase ty = "signal" →
      classify schema (some { type := some ty, breakthrough := bv }) = schema.level1) ∧
    (lowercase ty = "molecule" ∨ lowercase ty = "pattern" →
      classify schema (some { type := some ty, breakthrough := bv }) = schema.level2) ∧
    (lowercase ty = "law" ∨ lowercase ty = "constant" →
      classify schema (some { type := some ty, breakthrough := bv }) = schema.level3) ∧
    (ty ≠ "" → lowercase ty ≠ "atom" → lowercase ty ≠ "signal" →
      lowercase ty ≠ "molecule" → lowercase ty ≠ "pattern" →
      lowercase ty ≠ "law" → lowercase ty ≠ "constant" →
      classify schema (some { type := some ty, breakthrough := bv }) = ty) := by
  have hne : ∀ s : String, lowercase ty = s → s ≠ "" → ty ≠ "" := by
    intro s hs hsne he
    subst he
    exact hsne hs.symm
  refine ⟨rfl, rfl, ?_, ?_, ?_, ?_⟩
  · rintro (h | h) <;>
      simp [classify, hne _ h (by decide), h]
  · rintro (h | h) <;>
      simp [classify, hne _ h (by decide), h]
  · rintro (h | h) <;>
      simp [classify, hne _ h (by decide), h]
  · intro h0 h1 h2 h3 h4 h5 h6
    simp [classify, h0, h1, h2, h3, h4, h5, h6]

/-- C1.  The classifier maps lower-cased atom/signal to the level-1 label,
molecule/pattern to level-2, law/constant to level-3, returns any other
non-empty string unchanged, and yields the level-1 default when the
frontmatter or its type field is absent; it is total by construction. -/
theorem classify_spec (schema : Schema) (bv : Option Bool) (ty : String) :
    (classify schema none = schema.level1) ∧
    (classify schema (some { type := none, breakthrough := bv }) = schema.level1) ∧
    (lowercase ty = "atom" ∨ lowercase ty = "signal" →
      classify schema (some { type := some ty, breakthrough := bv }) = schema.level1) ∧
    (lowercase ty = "molecule" ∨ lowercase ty = "pattern" →
      classify schema (some { type := some ty, breakthrough := bv }) = schema.level2) ∧
    (lowercase ty = "law" ∨ lowercase ty = "constant" →
      classify schema (some { type := some ty, breakthrough := bv }) = schema.level3) ∧
    (ty ≠ "" → lowercase ty ≠ "atom" → lowercase ty ≠ "signal" →
      lowercase ty ≠ "molecule" → lowercase ty ≠ "pattern" →
      lowercase ty ≠ "law" → lowercase ty ≠ "constant" →
      classify schema (some { type := some ty, breakthrough := bv }) = ty) :=
  classify_cases schema bv ty

/-- Witness for C1 at concrete inputs. -/
theorem classify_spec_witness :
    classify DEFAULT_SETTINGS.schema (some { type := some "Atom", breakthrough := none }) = "Signal" ∧
    classify DEFAULT_SETTINGS.schema (some { type := some "Molecule", breakthrough := none }) = "Pattern" ∧
    classify DEFAULT_SETTINGS.schema (some { type := some "LAW", breakthrough := none }) = "Constant" ∧
    classify DEFAULT_SETTINGS.schema (some { type := some "weird", breakthrough := none }) = "weird" ∧
    classify DEFAULT_SETTINGS.schema none = "Signal" := by
  refine ⟨?_, ?_, ?_, ?_, ?_⟩
  · exact ((classify_spec DEFAULT_SETTINGS.schema none "Atom").2.2.1 (Or.inl (by decide)))
  · exact ((classify_spec DEFAULT_SETTINGS.schema none "Molecule").2.2.2.1 (Or.inl (by decide)))
  · exact ((classify_spec DEFAULT_SETTINGS.schema none "LAW").2.2.2.2.1 (Or.inl (by decide)))
  · exact ((classify_spec DEFAULT_SETTINGS.schema none "weird").2.2.2.2.2 (by decide)
      (by decide) (by decide) (by decide) (by decide) (by decide) (by decide))
  · exact (classify_spec DEFAULT_SETTINGS.schema none "x").1

/-- One vault markdown file as the dashboard loop reads it: its basename,
the cached frontmatter (absent for files without one) and the cached tag
list (`cache.tags` may be absent). -/
structure Doc where
  basename : String
  frontmatter : Option Frontmatter
  tags : Option (List String)
deriving DecidableEq, Repr

/-- The counts record of generateGlobalDashboard (main.ts lines 118-123). -/
structure Counts where
  signals : Nat
  patterns : Nat
  constants : Nat
  breakthroughs : Nat
deriving DecidableEq, Repr

/-- The loop state of generateGlobalDashboard: the counts plus the two
member lists (main.ts lines 118-126). -/
structure Agg where
  counts : Counts
  constantList : List String
  patternList : List String
deriving DecidableEq, Repr

/-- One iteration of the "Crunch the data" loop of generateGlobalDashboard
(main.ts lines 129-151): skip documents without frontmatter, lower-case
`fm.type || ""`, bump each tier counter whose condition matches (also
collecting the pattern and constant member lines), then bump the
breakthrough counter when the tag or the boolean flag condition holds. -/
def crunchStep (acc : Agg) (d : Doc) : Agg :=
  match d.frontmatter with
  | none => acc
  | some fm =>
    let ty := lowercase (fm.type.getD "")
    let acc :=
      if ty == "atom" || ty == "signal" then
        { acc with counts := { acc.counts with signals := acc.counts.signals + 1 } }
      else acc
    let acc :=
      if ty == "molecule" || ty == "pattern" then
        { acc with counts := { acc.counts with patterns := acc.counts.patterns + 1 },
                   patternList := acc.patternList ++ ["- [[" ++ d.basename ++ "]]"] }
      else acc
    let acc :=
      if ty == "law" || ty == "constant" then
        { acc with counts := { acc.counts with constants := acc.counts.constants + 1 },
                   constantList := acc.constantList ++ ["- [[" ++ d.basename ++ "]]"] }
      else acc
    if (d.tags.getD []).contains "#breakthrough" || fm.breakthrough == some true then
      { acc with counts := { acc.counts with breakthroughs := acc.counts.breakthroughs + 1 } }
    else acc

/-- The whole "Crunch the data" loop, starting from the zeroed counts and
empty member lists. -/
def crunch (docs : List Doc) : Agg :=
  docs.foldl crunchStep { counts := ⟨0, 0, 0, 0⟩, constantList := [], patternList := [] }

/-- The tier-1 condition of the loop (line 137) as a document predicate. -/
def tier1Doc (d : Doc) : Bool :=
  match d.frontmatter with
  | none => false
  | some fm =>
    let ty := lowercase (fm.type.getD "")
    ty == "atom" || ty == "signal"

/-- The tier-2 condition of the loop (line 138) as a document predicate. -/
def tier2Doc (d : Doc) : Bool :=
  match d.frontmatter with
  | none => false
  | some fm =>
    let ty := lowercase (fm.type.getD "")
    ty == "molecule" || ty == "pattern"

/-- The tier-3 condition of the loop (line 142) as a document predicate. -/
def tier3Doc (d : Doc) : Bool :=
  match d.frontmatter with
  | none => false
  | some fm =>
    let ty := lowercase (fm.type.getD "")
    ty == "law" || ty == "constant"

/-- The breakthrough condition of the loop (line 148) as a document
predicate: frontmatter present, and the tag list contains the breakthrough
tag or the boolean flag equals true. -/
def isBreakthroughDoc (d : Doc) : Bool :=
  match d.frontmatter with
  | none => false
  | some fm => (d.tags.getD []).contains "#breakthrough" || fm.breakthrough == some true

/-- A document with frontmatter whose lower-cased type is one of the six
canonical values, i.e. one counted by some tier condition. -/
def typedCanonical (d : Doc) : Bool :=
  match d.frontmatter with
  | none => false
  | some fm =>
    let ty := lowercase (fm.type.getD "")
    ty == "atom" || ty == "signal" || ty == "molecule" || ty == "pattern" ||
      ty == "law" || ty == "constant"

lemma crunchStep_signals (acc : Agg) (d : Doc) :
    (crunchStep acc d).counts.signals =
      acc.counts.signals + (if tier1Doc d then 1 else 0) := by
  rcases d with ⟨name, fm?, tags⟩
  rcases fm? with _ | fm
  · simp [crunchStep, tier1Doc]
  · simp only [crunchStep, tier1Doc]
    split_ifs <;> simp_all

lemma crunchStep_patterns (acc : Agg) (d : Doc) :
    (crunchStep acc d).counts.patterns =
      acc.counts.patterns + (if tier2Doc d then 1 else 0) := by
  rcases d with ⟨name, fm?, tags⟩
  rcases fm? with _ | fm
  · simp [crunchStep, tier2Doc]
  · simp only [crunchStep, tier2Doc]
    split_ifs <;> simp_all

lemma crunchStep_constants (acc : Agg) (d : Doc) :
    (crunchStep acc d).counts.constants =
      acc.counts.constants + (if tier3Doc d then 1 else 0) := by
  rcases d with ⟨name, fm?, tags⟩
  rcases fm? with _ | fm
  · simp [crunchStep, tier3Doc]
  · simp only [crunchStep, tier3Doc]
    split_ifs <;> simp_all

lemma crunchStep_breakthroughs (acc : Agg) (d : Doc) :
    (crunchStep acc d).counts.breakthroughs =
      acc.counts.breakthroughs + (if isBreakthroughDoc d then 1 else 0) := by
  rcases d with ⟨name, fm?, tags⟩
  rcases fm? with _ | fm
  · simp [crunchStep, isBreakthroughDoc]
  · simp only [crunchStep, isBreakthroughDoc]
    split_ifs <;> simp_all

lemma crunch_foldl_signals (docs : List Doc) : ∀ acc : Agg,
    (docs.foldl crunchStep acc).counts.signals =
      acc.counts.signals + docs.countP tier1Doc := by
  induction docs with
  | nil => intro acc; simp
  | cons a l ih =>
    intro acc
    simp only [List.foldl_cons, List.countP_cons, ih, crunchStep_signals]
    by_cases h : tier1Doc a <;> simp [h] <;> omega

lemma crunch_foldl_patterns (docs : List Doc) : ∀ acc : Agg,
    (docs.foldl crunchStep acc).counts.patterns =
      acc.counts.patterns + docs.countP tier2Doc := by
  induction docs with
  | nil => intro acc; simp
  | cons a l ih =>
    intro acc
    simp only [List.foldl_cons, List.countP_cons, ih, crunchStep_patterns]
    by_cases h : tier2Doc a <;> simp [h] <;> omega

lemma crunch_foldl_constants (docs : List Doc) : ∀ acc : Agg,
    (docs.foldl crunchStep acc).counts.constants =
      acc.counts.constants + docs.countP tier3Doc := by
  induction docs with
  | nil => intro acc; simp
  | cons a l ih =>
    intro acc
    simp only [List.foldl_cons, List.countP_cons, ih, crunchStep_constants]
    by_cases h : tier3Doc a <;> simp [h] <;> omega

lemma crunch_foldl_breakthroughs (docs : List Doc) : ∀ acc : Agg,
    (docs.foldl crunchStep acc).counts.breakthroughs =
      acc.counts.breakthroughs + docs.countP isBreakthroughDoc := by
  induction docs with
  | nil => intro acc; simp
  | cons a l ih =>
    intro acc
    simp only [List.foldl_cons, List.countP_cons, ih, crunchStep_breakthroughs]
    by_cases h : isBreakthroughDoc a <;> simp [h] <;> omega

lemma crunch_signals (docs : List Doc) :
    (crunch docs).counts.signals = docs.countP tier1Doc := by
  rw [crunch, crunch_foldl_signals]
  simp

lemma crunch_patterns (docs : List Doc) :
    (crunch docs).counts.patterns = docs.countP tier2Doc := by
  rw [crunch, crunch_foldl_patterns]
  simp

lemma crunch_constants (docs : List Doc) :
    (crunch docs).counts.constants = docs.countP tier3Doc := by
  rw [crunch, crunch_foldl_constants]
  simp

lemma crunch_breakthroughs (docs : List Doc) :
    (crunch docs).counts.breakthroughs = docs.countP isBreakthroughDoc := by
  rw [crunch, crunch_foldl_breakthroughs]
  simp

/-- C4.  The aggregated breakthrough count is exactly the number of
documents with frontmatter whose tag list contains the breakthrough tag or
whose boolean flag is true; a document satisfying both is counted once,
since the loop bumps the counter at most once per document. -/
theorem crunch_breakthroughs_spec (docs : List Doc) :
    (crunch docs).counts.breakthroughs =
      docs.countP (fun d =>
        match d.frontmatter with
        | none => false
        | some fm =>
          (d.tags.getD []).contains "#breakthrough" || fm.breakthrough == some true) :=
  crunch_breakthroughs docs

lemma tierDoc_cases (d : Doc) :
    (tier1Doc d = false ∧ tier2Doc d = false ∧ tier3Doc d = false ∧
      typedCanonical d = false) ∨
    (d.frontmatter.isSome = true ∧ typedCanonical d = true ∧
      ((tier1Doc d = true ∧ tier2Doc d = false ∧ tier3Doc d = false) ∨
       (tier1Doc d = false ∧ tier2Doc d = true ∧ tier3Doc d = false) ∨
       (tier1Doc d = false ∧ tier2Doc d = false ∧ tier3Doc d = true))) := by
  rcases d with ⟨name, fm?, tags⟩
  rcases fm? with _ | fm
  · left; simp [tier1Doc, tier2Doc, tier3Doc, typedCanonical]
  · simp only [tier1Doc, tier2Doc, tier3Doc, typedCanonical, Option.isSome_some]
    by_cases h1 : lowercase (fm.type.getD "") = "atom" ∨ lowercase (fm.type.getD "") = "signal"
    · right
      rcases h1 with h | h <;> simp [h]
    · by_cases h2 : lowercase (fm.type.getD "") = "molecule" ∨
          lowercase (fm.type.getD "") = "pattern"
      · right
        rcases h2 with h | h <;> simp [h]
      · by_cases h3 : lowercase (fm.type.getD "") = "law" ∨
            lowercase (fm.type.getD "") = "constant"
        · right
          rcases h3 with h | h <;> simp [h]
        · left
          push_neg at h1 h2 h3
          simp [h1.1, h1.2, h2.1, h2.2, h3.1, h3.2]

/-- C6.  The three tier counters sum to at most the number of documents
with frontmatter, and if the sum reaches that number then every document
with frontmatter has a canonical (tier-mapped) type. -/
theorem crunch_tier_sum_le (docs : List Doc) :
    (crunch docs).counts.signals + (crunch docs).counts.patterns +
        (crunch docs).counts.constants ≤
      docs.countP (fun d => d.frontmatter.isSome) ∧
    ((crunch docs).counts.signals + (crunch docs).counts.patterns +
        (crunch docs).counts.constants =
      docs.countP (fun d => d.frontmatter.isSome) →
      ∀ d ∈ docs, d.frontmatter.isSome = true → typedCanonical d = true) := by
  rw [crunch_signals, crunch_patterns, crunch_constants]
  induction docs with
  | nil => simp
  | cons a l ih =>
    simp only [List.countP_cons, List.mem_cons]
    have ha := tierDoc_cases a
    rcases ha with ⟨e1, e2, e3, _⟩ | ⟨hfm, hcanon, hx⟩
    · constructor
      · rcases ih with ⟨ihle, _⟩
        simp only [e1, e2, e3, Bool.false_eq_true, if_false]
        split <;> omega
      · intro heq
        rcases ih with ⟨ihle, iheq⟩
        simp only [e1, e2, e3, Bool.false_eq_true, if_false] at heq
        by_cases hfa : a.frontmatter.isSome
        · exfalso
          simp [hfa] at heq
          omega
        · intro d hd hdfm
          rcases hd with rfl | hd
          · exact absurd hdfm (by simp [hfa])
          · refine iheq ?_ d hd hdfm
            simp [hfa] at heq; omega
    · have hcount :
        (if tier1Doc a then 1 else 0) + (if tier2Doc a then 1 else 0) +
          (if tier3Doc a then 1 else 0) = 1 := by
        rcases hx with ⟨x1, x2, x3⟩ | ⟨x1, x2, x3⟩ | ⟨x1, x2, x3⟩ <;> simp [x1, x2, x3]
      rcases ih with ⟨ihle, iheq⟩
      constructor
      · simp only [hfm, if_true]
        omega
      · intro heq d hd hdfm
        rcases hd with rfl | hd
        · exact hcanon
        · refine iheq ?_ d hd hdfm
          simp only [hfm, if_true] at heq
          omega

/-- Witness for C6: a collection where the sum is strictly below the
frontmatter count (a custom type) together with one where equality holds
and every typed document is canonical. -/
theorem crunch_tier_sum_le_witness :
    ((crunch [⟨"a", some ⟨some "atom", none⟩, none⟩,
              ⟨"b", some ⟨some "custom", none⟩, none⟩]).counts.signals +
     (crunch [⟨"a", some ⟨some "atom", none⟩, none⟩,
              ⟨"b", some ⟨some "custom", none⟩, none⟩]).counts.patterns +
     (crunch [⟨"a", some ⟨some "atom", none⟩, none⟩,
              ⟨"b", some ⟨some "custom", none⟩, none⟩]).counts.constants ≤ 2) ∧
    typedCanonical ⟨"a", some ⟨some "atom", none⟩, none⟩ = true := by
  constructor
  · have h := (crunch_tier_sum_le
      [⟨"a", some ⟨some "atom", none⟩, none⟩,
       ⟨"b", some ⟨some "custom", none⟩, none⟩]).1
    simpa using h
  · have h := (crunch_tier_sum_le [⟨"a", some ⟨some "atom", none⟩, none⟩]).2
    exact h (by decide) _ (by simp) (by decide)

lemma crunch_singleton_counts (d : Doc) :
    (crunch [d]).counts.signals = (if tier1Doc d then 1 else 0) ∧
    (crunch [d]).counts.patterns = (if tier2Doc d then 1 else 0) ∧
    (crunch [d]).counts.constants = (if tier3Doc d then 1 else 0) := by
  rw [crunch_signals, crunch_patterns, crunch_constants]
  simp [List.countP_cons]

/-- C2 counterexample.  A document whose frontmatter is present but whose
type field is absent: the per-document classifier assigns it the level-1
tier label, yet the aggregator counts it toward no tier bucket, although
its type is not a custom string. -/
theorem crunch_classifier_mismatch :
    classify DEFAULT_SETTINGS.schema (some { type := none, breakthrough := none }) =
      DEFAULT_SETTINGS.schema.level1 ∧
    (crunch [{ basename := "note",
               frontmatter := some { type := none, breakthrough := none },
               tags := none }]).counts.signals = 0 ∧
    (crunch [{ basename := "note",
               frontmatter := some { type := none, breakthrough := none },
               tags := none }]).counts.patterns = 0 ∧
    (crunch [{ basename := "note",
               frontmatter := some { type := none, breakthrough := none },
               tags := none }]).counts.constants = 0 := by
  decide

/-- C2 as amended.  For a document with frontmatter present: a canonical
type value places it in exactly the matching tier bucket, and on such
values the classifier assigns the same tier's label; for every other type
value - a fully custom string, but also an absent or empty type field
(which the classifier defaults to the level-1 label) - the aggregator
counts the document toward no tier bucket. -/
theorem crunch_tier_buckets (fm : Frontmatter) (name : String)
    (tags : Option (List String)) :
    (lowercase (fm.type.getD "") = "atom" ∨ lowercase (fm.type.getD "") = "signal" →
      classify DEFAULT_SETTINGS.schema (some fm) = DEFAULT_SETTINGS.schema.level1 ∧
      (crunch [⟨name, some fm, tags⟩]).counts.signals = 1 ∧
      (crunch [⟨name, some fm, tags⟩]).counts.patterns = 0 ∧
      (crunch [⟨name, some fm, tags⟩]).counts.constants = 0) ∧
    (lowercase (fm.type.getD "") = "molecule" ∨ lowercase (fm.type.getD "") = "pattern" →
      classify DEFAULT_SETTINGS.schema (some fm) = DEFAULT_SETTINGS.schema.level2 ∧
      (crunch [⟨name, some fm, tags⟩]).counts.signals = 0 ∧
      (crunch [⟨name, some fm, tags⟩]).counts.patterns = 1 ∧
      (crunch [⟨name, some fm, tags⟩]).counts.constants = 0) ∧
    (lowercase (fm.type.getD "") = "law" ∨ lowercase (fm.type.getD "") = "constant" →
      classify DEFAULT_SETTINGS.schema (some fm) = DEFAULT_SETTINGS.schema.level3 ∧
      (crunch [⟨name, some fm, tags⟩]).counts.signals = 0 ∧
      (crunch [⟨name, some fm, tags⟩]).counts.patterns = 0 ∧
      (crunch [⟨name, some fm, tags⟩]).counts.constants = 1) ∧
    (¬(lowercase (fm.type.getD "") = "atom" ∨ lowercase (fm.type.getD "") = "signal" ∨
        lowercase (fm.type.getD "") = "molecule" ∨ lowercase (fm.type.getD "") = "pattern" ∨
        lowercase (fm.type.getD "") = "law" ∨ lowercase (fm.type.getD "") = "constant") →
      (crunch [⟨name, some fm, tags⟩]).counts.signals = 0 ∧
      (crunch [⟨name, some fm, tags⟩]).counts.patterns = 0 ∧
      (crunch [⟨name, some fm, tags⟩]).counts.constants = 0 ∧
      (fm.type = none ∨ fm.type = some "" →
        classify DEFAULT_SETTINGS.schema (some fm) = DEFAULT_SETTINGS.schema.level1) ∧
      (∀ s, fm.type = some s → s ≠ "" →
        classify DEFAULT_SETTINGS.schema (some fm) = s)) := by
  obtain ⟨ty?, bv⟩ := fm
  obtain ⟨hs, hp, hk⟩ := crunch_singleton_counts ⟨name, some ⟨ty?, bv⟩, tags⟩
  refine ⟨?_, ?_, ?_, ?_⟩
  · intro h
    rcases ty? with _ | ty
    · rcases h with h | h
      · exact absurd h (show lowercase "" ≠ "atom" by decide)
      · exact absurd h (show lowercase "" ≠ "signal" by decide)
    · simp only [Option.getD_some] at h
      refine ⟨(classify_cases DEFAULT_SETTINGS.schema bv ty).2.2.1 h, ?_, ?_, ?_⟩
      · rw [hs]; rcases h with h | h <;> simp [tier1Doc, h]
      · rw [hp]; rcases h with h | h <;> simp [tier2Doc, h]
      · rw [hk]; rcases h with h | h <;> simp [tier3Doc, h]
  · intro h
    rcases ty? with _ | ty
    · rcases h with h | h
      · exact absurd h (show lowercase "" ≠ "molecule" by decide)
      · exact absurd h (show lowercase "" ≠ "pattern" by decide)
    · simp only [Option.getD_some] at h
      refine ⟨(classify_cases DEFAULT_SETTINGS.schema bv ty).2.2.2.1 h, ?_, ?_, ?_⟩
      · rw [hs]; rcases h with h | h <;> simp [tier1Doc, h]
      · rw [hp]; rcases h with h | h <;> simp [tier2Doc, h]
      · rw [hk]; rcases h with h | h <;> simp [tier3Doc, h]
  · intro h
    rcases ty? with _ | ty
    · rcases h with h | h
      · exact absurd h (show lowercase "" ≠ "law" by decide)
      · exact absurd h (show lowercase "" ≠ "constant" by decide)
    · simp only [Option.getD_some] at h
      refine ⟨(classify_cases DEFAULT_SETTINGS.schema bv ty).2.2.2.2.1 h, ?_, ?_, ?_⟩
      · rw [hs]; rcases h with h | h <;> simp [tier1Doc, h]
      · rw [hp]; rcases h with h | h <;> simp [tier2Doc, h]
      · rw [hk]; rcases h with h | h <;> simp [tier3Doc, h]
  · intro hnc
    push_neg at hnc
    obtain ⟨n1, n2, n3, n4, n5, n6⟩ := hnc
    refine ⟨?_, ?_, ?_, ?_, ?_⟩
    · rw [hs]; simp [tier1Doc, n1, n2]
    · rw [hp]; simp [tier2Doc, n3, n4]
    · rw [hk]; simp [tier3Doc, n5, n6]
    · rintro (h0 | h0) <;> simp only at h0 <;> subst h0
      · exact (classify_cases DEFAULT_SETTINGS.schema bv "x").2.1
      · simp [classify]
    · intro s hsome hne
      simp only at hsome
      subst hsome
      simp only [Option.getD_some] at n1 n2 n3 n4 n5 n6
      exact (classify_cases DEFAULT_SETTINGS.schema bv s).2.2.2.2.2 hne n1 n2 n3 n4 n5 n6

/-- Witness for the amended C2 at concrete inputs. -/
theorem crunch_tier_buckets_witness :
    classify DEFAULT_SETTINGS.schema (some ⟨some "Pattern", none⟩) = "Pattern" ∧
    (crunch [⟨"n", some ⟨some "Pattern", none⟩, none⟩]).counts.patterns = 1 ∧
    (crunch [⟨"n", some ⟨some "Custom", none⟩, none⟩]).counts.signals = 0 := by
  have h2 := (crunch_tier_buckets ⟨some "Pattern", none⟩ "n" none).2.1
    (Or.inr (by decide))
  have h4 := (crunch_tier_buckets ⟨some "Custom", none⟩ "n" none).2.2.2
    (by decide)
  exact ⟨h2.1, h2.2.2.1, h4.1⟩

/-- The three possible insight branches of generateGlobalDashboard
(main.ts lines 200-208). -/
inductive Insight where
  | highSignalNoise
  | readyForBreakthrough
  | healthyArchitecture
deriving DecidableEq, Repr

/-- The insight branch selection of generateGlobalDashboard (main.ts
lines 200-208).  JavaScript computes `counts.signals /
(counts.patterns || 1)` as a floating-point quotient of two counters;
it is modelled with exact rational division. -/
def chooseInsight (signals patterns constants : Nat) : Insight :=
  let q : ℚ := (signals : ℚ) / (if patterns = 0 then 1 else (patterns : ℚ))
  if q > 10 then .highSignalNoise
  else if constants = 0 ∧ patterns > 5 then .readyForBreakthrough
  else .healthyArchitecture

lemma chooseInsight_eq (signals patterns constants : Nat) :
    chooseInsight signals patterns constants =
      (if (signals : ℚ) / max (patterns : ℚ) 1 > 10 then Insight.highSignalNoise
       else if constants = 0 ∧ patterns > 5 then Insight.readyForBreakthrough
       else Insight.healthyArchitecture) := by
  have hmax : (if patterns = 0 then (1 : ℚ) else (patterns : ℚ)) = max (patterns : ℚ) 1 := by
    split
    · simp [*]
    · have h1 : (1 : ℚ) ≤ (patterns : ℚ) := by
        exact_mod_cast Nat.one_le_iff_ne_zero.mpr (by assumption)
      rw [max_eq_left h1]
  unfold chooseInsight
  rw [hmax]

/-- C3.  The insight section is selected by three mutually exclusive and
exhaustive branches evaluated in order: high signal noise when
signals / max(patterns, 1) exceeds 10, else ready-for-breakthrough when
there are no constants and more than five patterns, else healthy
architecture; including the three concrete instances of the spec. -/
theorem chooseInsight_spec (signals patterns constants : Nat) :
    (chooseInsight signals patterns constants = Insight.highSignalNoise ↔
      (signals : ℚ) / max (patterns : ℚ) 1 > 10) ∧
    (chooseInsight signals patterns constants = Insight.readyForBreakthrough ↔
      ¬((signals : ℚ) / max (patterns : ℚ) 1 > 10) ∧ constants = 0 ∧ patterns > 5) ∧
    (chooseInsight signals patterns constants = Insight.healthyArchitecture ↔
      ¬((signals : ℚ) / max (patterns : ℚ) 1 > 10) ∧ ¬(constants = 0 ∧ patterns > 5)) ∧
    (∀ c, chooseInsight 11 1 c = Insight.highSignalNoise) ∧
    ((11 : ℚ) / max ((1 : Nat) : ℚ) 1 = 11) ∧
    chooseInsight 0 6 0 = Insight.readyForBreakthrough ∧
    chooseInsight 2 2 1 = Insight.healthyArchitecture := by
  refine ⟨?_, ?_, ?_, ?_, ?_, ?_, ?_⟩
  · rw [chooseInsight_eq]
    split_ifs with h1 h2 <;> simp [*]
  · rw [chooseInsight_eq]
    split_ifs with h1 h2 <;> simp [*]
  · rw [chooseInsight_eq]
    split_ifs with h1 h2 <;> simp [*]
  · intro c
    rw [chooseInsight_eq]
    rw [if_pos (by norm_num)]
  · norm_num
  · rw [chooseInsight_eq]
    rw [if_neg (by norm_num), if_pos (by norm_num)]
  · rw [chooseInsight_eq]
    rw [if_neg (by norm_num), if_neg (by norm_num)]

lemma toDigitsCore_eq_append :
    ∀ (n fuel : Nat) (ds : List Char), n < fuel →
      Nat.toDigitsCore 10 fuel n ds = Nat.toDigits 10 n ++ ds := by
  intro n
  induction n using Nat.strong_induction_on with
  | _ n ih =>
    intro fuel ds hfuel
    match fuel, hfuel with
    | f + 1, hfuel =>
      by_cases h : n / 10 = 0
      · simp only [Nat.toDigitsCore, h, if_true, Nat.toDigits]
        simp [Nat.toDigitsCore, h]
      · have hn0 : 0 < n := by
          rcases Nat.eq_zero_or_pos n with rfl | hp
          · simp at h
          · exact hp
        have hdiv : n / 10 < n := Nat.div_lt_self hn0 (by omega)
        have hdivf : n / 10 < f := by omega
        simp only [Nat.toDigitsCore, h, if_false]
        rw [ih (n / 10) hdiv f _ hdivf]
        have : Nat.toDigits 10 n =
            Nat.toDigits 10 (n / 10) ++ [Nat.digitChar (n % 10)] := by
          show Nat.toDigitsCore 10 (n + 1) n [] = _
          simp only [Nat.toDigitsCore, h, if_false]
          exact ih (n / 10) hdiv n _ (by omega)
        rw [this, List.append_assoc]
        rfl

/-- The decimal value of a digit character, inverse to Nat.digitChar on
digits below ten. -/
def digitVal (c : Char) : Nat := c.toNat - 48

/-- Reads a decimal digit string back into a number; left inverse of the
decimal rendering used by the diagram generator's node identifiers. -/
def parseDigits (l : List Char) : Nat :=
  l.foldl (fun a c => a * 10 + digitVal c) 0

lemma digitVal_digitChar : ∀ d : Nat, d < 10 → digitVal (Nat.digitChar d) = d := by
  decide

lemma parseDigits_toDigits : ∀ n : Nat, parseDigits (Nat.toDigits 10 n) = n := by
  intro n
  induction n using Nat.strong_induction_on with
  | _ n ih =>
    by_cases h : n / 10 = 0
    · have hn : n < 10 := (Nat.div_eq_zero_iff (show (0 : Nat) < 10 from by omega)).mp h
      show parseDigits (Nat.toDigitsCore 10 (n + 1) n []) = n
      simp only [Nat.toDigitsCore, h, if_true]
      show 0 * 10 + digitVal (Nat.digitChar (n % 10)) = n
      rw [digitVal_digitChar (n % 10) (Nat.mod_lt _ (by omega))]
      omega
    · have hn0 : 0 < n := by
        rcases Nat.eq_zero_or_pos n with rfl | hp
        · simp at h
        · exact hp
      have hdiv : n / 10 < n := Nat.div_lt_self hn0 (by omega)
      have hsplit : Nat.toDigits 10 n =
          Nat.toDigits 10 (n / 10) ++ [Nat.digitChar (n % 10)] := by
        show Nat.toDigitsCore 10 (n + 1) n [] = _
        simp only [Nat.toDigitsCore, h, if_false]
        exact toDigitsCore_eq_append (n / 10) n _ (by omega)
      rw [hsplit]
      unfold parseDigits
      rw [List.foldl_append]
      have hbase := ih (n / 10) hdiv
      unfold parseDigits at hbase
      rw [hbase]
      simp only [List.foldl_cons, List.foldl_nil]
      rw [digitVal_digitChar (n % 10) (Nat.mod_lt _ (by omega))]
      omega

lemma natRepr_injective : Function.Injective Nat.repr := by
  intro m n h
  have hdata : Nat.toDigits 10 m = Nat.toDigits 10 n := congrArg String.data h
  calc m = parseDigits (Nat.toDigits 10 m) := (parseDigits_toDigits m).symm
    _ = parseDigits (Nat.toDigits 10 n) := by rw [hdata]
    _ = n := parseDigits_toDigits n

lemma str_ext {s t : String} (h : s.data = t.data) : s = t :=
  congrArg String.mk h

lemma join_cons (s : String) (l : List String) :
    String.join (s :: l) = s ++ String.join l := by
  apply str_ext
  simp [String.join_eq]

/-- The name sanitization of generateMermaid (main.ts lines 98 and 103):
strip every character that is not ASCII alphanumeric.  Its results
(`safeCenter`, `safeNode`) are computed but never used by the source. -/
def sanitizeMermaidName (s : String) : String :=
  String.mk (s.data.filter Char.isAlphanum)

/-- One edge declaration emitted per outgoing connection
(main.ts line 104): the node identifier is `Node` followed by the decimal
position index, the label is the displayText. -/
def mermaidEdgeLine (index : Nat) (node : MapNode) : String :=
  "    Center --> Node" ++ Nat.repr index ++ "[\"" ++ node.displayText ++ "\"]\n"

/-- The forEach loop of generateMermaid (main.ts lines 102-105):
one edge declaration appended per node, indexed by position; the
sanitized node name is computed but unused, as in the source. -/
def mermaidEdges : List MapNode → Nat → String
  | [], _ => ""
  | node :: rest, index =>
    let safeNode := sanitizeMermaidName node.name
    mermaidEdgeLine index node ++ mermaidEdges rest (index + 1)

/-- The fixed preamble of generateMermaid (main.ts lines 89-100): the
graph directive, three style classes, and the center node declaration
labeled with the raw central name and styled by the lower-cased tier. -/
def mermaidHeader (data : ConnectionMap) (centralName : String) : String :=
  let graph := "graph TD\n"
  let graph := graph ++ "    classDef signal fill:#e1f5fe,stroke:#01579b,stroke-width:2px;\n"
  let graph := graph ++ "    classDef pattern fill:#e8f5e9,stroke:#1b5e20,stroke-width:4px;\n"
  let graph := graph ++ "    classDef constant fill:#fff8e1,stroke:#ff6f00,stroke-width:6px;\n"
  let centerClass := lowercase data.myType
  let safeCenter := sanitizeMermaidName centralName
  graph ++ "    Center[\"" ++ centralName ++ "\"]:::" ++ centerClass ++ "\n"

/-- generateMermaid (main.ts lines 88-108): preamble followed by the edge
declarations in node order. -/
def generateMermaid (data : ConnectionMap) (centralName : String) : String :=
  mermaidHeader data centralName ++ mermaidEdges data.nodes 0

/-- The node identifiers used by one rendering with n outgoing
connections: the center plus `Node0 ... Node(n-1)`. -/
def mermaidNodeIds (n : Nat) : List String :=
  "Center" :: (List.range n).map (fun i => "Node" ++ Nat.repr i)

lemma mermaidEdges_join : ∀ (nodes : List MapNode) (i : Nat),
    mermaidEdges nodes i =
      String.join ((List.enumFrom i nodes).map (fun p => mermaidEdgeLine p.1 p.2)) := by
  intro nodes
  induction nodes with
  | nil => intro i; rfl
  | cons a l ih =>
    intro i
    simp only [mermaidEdges, List.enumFrom, List.map_cons]
    rw [join_cons, ih]

lemma nodeId_injective : Function.Injective (fun i : Nat => "Node" ++ Nat.repr i) := by
  intro i j h
  have hd : ("Node" ++ Nat.repr i).data = ("Node" ++ Nat.repr j).data :=
    congrArg String.data h
  simp only [String.data_append] at hd
  exact natRepr_injective (str_ext (List.append_cancel_left hd))

lemma mermaidNodeIds_nodup (n : Nat) : (mermaidNodeIds n).Nodup := by
  unfold mermaidNodeIds
  refine List.nodup_cons.mpr ⟨?_, ?_⟩
  · intro hmem
    rcases List.mem_map.mp hmem with ⟨i, _, hi⟩
    have hd := congrArg String.data hi
    simp only [String.data_append] at hd
    simp at hd
  · exact List.Nodup.map nodeId_injective (List.nodup_range n)

/-- C5.  The generator's output is its fixed preamble followed by exactly
one edge declaration per node, so the number of edge declarations equals
the number of nodes, which is the number of outgoing links produced by the
scanner; and the node identifiers of a rendering are pairwise distinct for
every input (the unused name sanitization cannot cause collisions since
identifiers come from the position index alone). -/
theorem generateMermaid_spec (data : ConnectionMap) (centralName : String)
    (settings : ArchitectSettings) (fm? : Option Frontmatter) (links : List Link) :
    generateMermaid data centralName =
      mermaidHeader data centralName ++
        String.join ((List.enumFrom 0 data.nodes).map (fun p => mermaidEdgeLine p.1 p.2)) ∧
    ((List.enumFrom 0 data.nodes).map (fun p => mermaidEdgeLine p.1 p.2)).length =
      data.nodes.length ∧
    (mermaidNodeIds data.nodes.length).Nodup ∧
    (scanConnections settings fm? links).nodes.length = links.length := by
  refine ⟨?_, ?_, mermaidNodeIds_nodup _, ?_⟩
  · unfold generateMermaid
    rw [mermaidEdges_join]
  · simp
  · simp [scanConnections]

lemma mermaidEdges_display : ∀ (ns1 ns2 : List MapNode) (i : Nat),
    ns1.map MapNode.displayText = ns2.map MapNode.displayText →
    mermaidEdges ns1 i = mermaidEdges ns2 i := by
  intro ns1
  induction ns1 with
  | nil =>
    intro ns2 i h
    cases ns2 with
    | nil => rfl
    | cons b m => simp at h
  | cons a l ih =>
    intro ns2 i h
    cases ns2 with
    | nil => simp at h
    | cons b m =>
      simp only [List.map_cons, List.cons.injEq] at h
      simp only [mermaidEdges, mermaidEdgeLine]
      rw [h.1, ih m (i + 1) h.2]

/-- C10.  The rendering depends on the nodes only through their
displayText: two inputs identical except for the node name (target)
fields produce identical output, because the sanitized node name is
computed but never used and identifiers come from the position index. -/
theorem generateMermaid_name_independent (myType centralName : String)
    (ns1 ns2 : List MapNode)
    (h : ns1.map MapNode.displayText = ns2.map MapNode.displayText) :
    generateMermaid ⟨myType, ns1⟩ centralName =
      generateMermaid ⟨myType, ns2⟩ centralName := by
  unfold generateMermaid
  rw [mermaidEdges_display ns1 ns2 0 h]
  rfl

/-- Witness for C10: same display texts, different targets, equal output. -/
theorem generateMermaid_name_independent_witness :
    ([⟨"Target One", "shown"⟩] : List MapNode).map MapNode.displayText =
      ([⟨"Other!", "shown"⟩] : List MapNode).map MapNode.displayText ∧
    generateMermaid ⟨"Signal", [⟨"Target One", "shown"⟩]⟩ "center" =
      generateMermaid ⟨"Signal", [⟨"Other!", "shown"⟩]⟩ "center" :=
  ⟨rfl, generateMermaid_name_independent "Signal" "center"
    [⟨"Target One", "shown"⟩] [⟨"Other!", "shown"⟩] rfl⟩

/-- Models Number.prototype.toFixed(1) as used on the dashboard ratio
(main.ts line 203) for the nonnegative rational ratios the dashboard
produces: round to the nearest tenth and render with one digit after the
point. -/
def toFixed1 (q : ℚ) : String :=
  let t : Int := Int.floor (q * 10 + 1 / 2)
  Int.repr (t / 10) ++ "." ++ Int.repr (t % 10)

/-- The `join('\n') || placeholder` idiom of main.ts lines 187 and 193:
an empty joined string is falsy, so the placeholder replaces it. -/
def joinOrPlaceholder (l : List String) (ph : String) : String :=
  let j := String.intercalate "\n" l
  if j == "" then ph else j

/-- The insight block appended by generateGlobalDashboard
(main.ts lines 200-208), one fixed text per selected branch, the warning
naming the ratio to one decimal place. -/
def insightBlock (counts : Counts) : String :=
  match chooseInsight counts.signals counts.patterns counts.constants with
  | Insight.highSignalNoise =>
    "> [!WARNING] High Signal Noise\n> You have " ++
      toFixed1 ((counts.signals : ℚ) /
        (if counts.patterns = 0 then 1 else (counts.patterns : ℚ))) ++
      " signals for every pattern. **Action:** Start synthesizing \"Circling\" ideas into \"Reframed\" Patterns.\n"
  | Insight.readyForBreakthrough =>
    "> [!TIP] Ready for Breakthrough\n> You have strong Patterns but no Constants. **Action:** Review your top Patterns to see which one is a Universal Law.\n"
  | Insight.healthyArchitecture =>
    "> [!SUCCESS] Healthy Architecture\n> Good balance between raw signals and crystallized truth.\n"

/-- The dashboard template of generateGlobalDashboard
(main.ts lines 153-208).  The `updated:` line interpolates
`new Date().toLocaleString()` in the source; the clock reading is passed
here as the explicit argument `now`. -/
def composeDashboard (counts : Counts) (constantList patternList : List String)
    (now : String) : String :=
  "---\ncssclass: dashboard\ntags: [dashboard, analytics]\nupdated: " ++ now ++
  "\n---\n\n<div class=\"architect-dashboard-header\">\n  <h1>🏛️ THEOPHYSICS ARCHITECT</h1>\n  <p>Global Structure Analysis</p>\n</div>\n\n<div class=\"architect-stat-container\">\n  <div class=\"architect-stat-box\">\n    <div class=\"architect-stat-number\">" ++
  Nat.repr counts.signals ++
  "</div>\n    <div class=\"architect-stat-label\">Signals</div>\n  </div>\n  <div class=\"architect-stat-box\">\n    <div class=\"architect-stat-number\">" ++
  Nat.repr counts.patterns ++
  "</div>\n    <div class=\"architect-stat-label\">Patterns</div>\n  </div>\n  <div class=\"architect-stat-box\">\n    <div class=\"architect-stat-number\">" ++
  Nat.repr counts.constants ++
  "</div>\n    <div class=\"architect-stat-label\">Constants</div>\n  </div>\n</div>\n\n## 🚀 Breakthrough Velocity\n**Total Breakthroughs:** " ++
  Nat.repr counts.breakthroughs ++
  "\n\n---\n\n## 🌌 The Constants (Laws)\n> *These are the bedrock truths.*\n" ++
  joinOrPlaceholder constantList "_No Constants defined yet._" ++
  "\n\n---\n\n## 🧬 The Patterns (Molecules)\n> *Where Physics and Theology represent the same shape.*\n" ++
  joinOrPlaceholder patternList "_No Patterns defined yet._" ++
  "\n\n---\n\n## 🧠 Analytics Insights\n" ++
  insightBlock counts

/-- C7 counterexample.  The rendered dashboard embeds the clock reading in
its `updated:` line, so equal counts and member lists do not give
identical output text across invocations: the output is not a function of
the counts and member lists alone. -/
theorem composeDashboard_time_dependent :
    composeDashboard ⟨0, 0, 0, 0⟩ [] [] "1/1/2025, 12:00:00 AM" ≠
      composeDashboard ⟨0, 0, 0, 0⟩ [] [] "1/2/2025, 12:00:00 AM" := by
  decide

/-- C7 as amended.  The report composer is deterministic in all of its
inputs including the clock reading: two invocations with equal counts,
equal member lists and an equal `updated` timestamp produce identical
output text. -/
theorem composeDashboard_deterministic (c1 c2 : Counts)
    (k1 k2 p1 p2 : List String) (t1 t2 : String)
    (hc : c1 = c2) (hk : k1 = k2) (hp : p1 = p2) (ht : t1 = t2) :
    composeDashboard c1 k1 p1 t1 = composeDashboard c2 k2 p2 t2 := by
  subst hc
  subst hk
  subst hp
  subst ht
  rfl

/-- Witness for the amended C7 at concrete inputs. -/
theorem composeDashboard_deterministic_witness :
    composeDashboard ⟨1, 2, 3, 4⟩ ["- [[c]]"] ["- [[p]]"] "now" =
      composeDashboard ⟨1, 2, 3, 4⟩ ["- [[c]]"] ["- [[p]]"] "now" :=
  composeDashboard_deterministic ⟨1, 2, 3, 4⟩ ⟨1, 2, 3, 4⟩
    ["- [[c]]"] ["- [[c]]"] ["- [[p]]"] ["- [[p]]"] "now" "now" rfl rfl rfl rfl

/-- The vault file tree as the save routine sees it: file paths with
their contents, plus folder paths.  Models the host storage provider. -/
structure Vault where
  files : List (String × String)
  folders : List String
deriving DecidableEq, Repr

/-- Host API model: vault.getAbstractFileByPath restricted to files -
the content of the file at a path, if one exists. -/
def getFileContent (v : Vault) (p : String) : Option String :=
  (v.files.find? (fun e => e.1 == p)).map (fun e => e.2)

/-- Host API model: vault.modify - replace the content of the file at a
path. -/
def vaultModify (v : Vault) (p c : String) : Vault :=
  { v with files := v.files.map (fun e => if e.1 == p then (e.1, c) else e) }

/-- Host API model: vault.create - add a new file. -/
def vaultCreate (v : Vault) (p c : String) : Vault :=
  { v with files := v.files ++ [(p, c)] }

/-- Host API model: vault.createFolder - add a folder. -/
def vaultCreateFolder (v : Vault) (p : String) : Vault :=
  { v with folders := v.folders ++ [p] }

/-- saveToAnalysisFolder (main.ts lines 214-232) over the vault model,
parametric in the host's path normalization function: ensure the
destination folder exists, compute the file path, then modify the
existing file there or create a new one.  The final open-in-workspace
step (lines 234-239) is UI-only and not part of the storage contract. -/
def saveToAnalysisFolder (np : String → String) (v : Vault)
    (analysisFolder filename content : String) : Vault :=
  let folderPath := np analysisFolder
  let v1 :=
    if v.folders.contains folderPath || (getFileContent v folderPath).isSome then v
    else vaultCreateFolder v folderPath
  let filePath := np (folderPath ++ "/" ++ filename)
  match getFileContent v1 filePath with
  | some _ => vaultModify v1 filePath content
  | none => vaultCreate v1 filePath content

lemma find_map_update : ∀ (l : List (String × String)) (p c : String),
    (l.find? (fun e => e.1 == p)).isSome →
    (((l.map (fun e => if e.1 == p then (e.1, c) else e)).find?
        (fun e => e.1 == p)).map (fun e => e.2)) = some c := by
  intro l p c h
  induction l with
  | nil => simp [List.find?] at h
  | cons a t ih =>
    simp only [List.map_cons]
    by_cases ha : a.1 == p
    · rw [if_pos ha]
      rw [List.find?_cons_of_pos]
      · simp
      · simpa using ha
    · rw [if_neg ha]
      rw [List.find?_cons_of_neg _ (by simpa using ha)]
      apply ih
      rw [List.find?_cons_of_neg _ (by simpa using ha)] at h
      exact h

lemma getFileContent_modify (v : Vault) (p c : String)
    (h : (getFileContent v p).isSome) :
    getFileContent (vaultModify v p c) p = some c := by
  unfold getFileContent vaultModify at *
  exact find_map_update v.files p c (by
    rcases Option.isSome_iff_exists.mp h with ⟨x, hx⟩
    rcases Option.map_eq_some'.mp hx with ⟨e, he, _⟩
    simp [he])

lemma getFileContent_create (v : Vault) (p c : String)
    (h : getFileContent v p = none) :
    getFileContent (vaultCreate v p c) p = some c := by
  unfold getFileContent vaultCreate at *
  have hfind : v.files.find? (fun e => e.1 == p) = none := by
    rcases hcase : v.files.find? (fun e => e.1 == p) with _ | e
    · exact hcase
    · rw [hcase] at h
      simp at h
  rw [List.find?_append, hfind]
  simp [List.find?]

/-- C8.  After the save routine runs, the file at the computed path holds
exactly the new content: an existing file's content is fully replaced (no
append, no merge), and otherwise a new file is created with that
content. -/
theorem saveToAnalysisFolder_spec (np : String → String) (v : Vault)
    (analysisFolder filename content : String) :
    getFileContent (saveToAnalysisFolder np v analysisFolder filename content)
      (np (np analysisFolder ++ "/" ++ filename)) = some content := by
  simp only [saveToAnalysisFolder]
  split
  · apply getFileContent_modify
    simp_all
  · apply getFileContent_create
    assumption

/-- The shape of the persisted settings record: each top-level field of
ArchitectSettings may be present or absent in storage. -/
structure StoredSettings where
  analysisFolder : Option String
  schema : Option Schema
deriving DecidableEq, Repr

/-- loadSettings (main.ts lines 242-244):
Object.assign with DEFAULT_SETTINGS and the loadData result - a shallow
merge of the stored record over the defaults (the whole record may be
absent when no data was ever saved); each top-level field present in
storage overrides the default wholesale. -/
def loadSettings (stored : Option StoredSettings) : ArchitectSettings :=
  match stored with
  | none => DEFAULT_SETTINGS
  | some s =>
    { analysisFolder := s.analysisFolder.getD DEFAULT_SETTINGS.analysisFolder
      schema := s.schema.getD DEFAULT_SETTINGS.schema }

/-- C9.  The loaded settings equal the defaults shallow-merged with the
stored record: a field absent from storage takes its default value
(folder "Data Analytics"; schema Signal/Pattern/Constant), and a field
present in storage overrides the default. -/
theorem loadSettings_spec (stored : Option StoredSettings) :
    (loadSettings stored).analysisFolder =
      (stored.bind (fun s => s.analysisFolder)).getD "Data Analytics" ∧
    (loadSettings stored).schema =
      (stored.bind (fun s => s.schema)).getD
        { level1 := "Signal", level2 := "Pattern", level3 := "Constant" } := by
  cases stored with
  | none => exact ⟨rfl, rfl⟩
  | some s => exact ⟨rfl, rfl⟩
